import Mathlib

/-
Verification of the ab_sniffer challenge service against its specification.

The embedding models the three source files of the repository:
  src/api/endpoints/challenge/service.py  (broker, scoring loop, aggregation)
  src/api/endpoints/challenge/utils.py    (framework sequence, container runner)
  src/api/endpoints/challenge/router.py   (HTTP layer for score/driver)

Wall-clock time is abstracted: a wait either finds a queued report, is woken
by a report accepted while it is blocked, or reaches its deadline with
nothing, which is the timeout branch.  Machine floats are modelled as
rationals.
-/

namespace ABSniffer

/-- State of the driver-result broker in service.py: the pending FIFO deque
guarded by the condition variable, and the number of consumer threads
currently blocked in a wait on that condition (the waiter collection the
source inspects via the condition object, relying on the primitive exposing
it). -/
structure BrokerState where
  queue : List String
  waiters : Nat
deriving DecidableEq, Repr

/-- Python str.strip() on the submitted text: remove leading and trailing
whitespace. -/
def pyStrip (s : String) : String :=
  ⟨((s.data.dropWhile Char.isWhitespace).reverse.dropWhile Char.isWhitespace).reverse⟩

/-- Embeds service.post_driver: strip the submitted driver text; under the
condition lock, append it to the queue and notify only when the condition has
an active waiter, otherwise drop it. -/
def post_driver (driver : String) (s : BrokerState) : BrokerState :=
  if s.waiters ≠ 0 then { s with queue := s.queue ++ [pyStrip driver] } else s

/-- Embeds service._clear_driver_queue: empty the pending queue under the
lock. -/
def clear_driver_queue (s : BrokerState) : BrokerState :=
  { s with queue := [] }

/-- Normalisation service._wait_for_driver_result applies to a dequeued
entry: popleft() or "", then strip, then return the value or None — empty
(falsy) text becomes absent. -/
def stripOrNone (s : String) : Option String :=
  let v := pyStrip s
  if v = "" then none else some v

/-- Embeds service._wait_for_driver_result with wall-clock time abstracted.
`queue` is the broker queue when the wait starts and `arrivals` lists the
reports accepted, in order, while this consumer is blocked on the condition.
A non-empty queue is popped immediately (no blocking happens, so `arrivals`
is irrelevant and later submissions face no waiter); otherwise the first
arrival wakes the consumer and is popped; an empty queue with no arrival is
the deadline branch, returning absent.  The second component is the queue
left behind. -/
def wait_for_driver_result (queue arrivals : List String) :
    Option String × List String :=
  match queue with
  | d :: rest => (stripOrNone d, rest)
  | [] =>
    match arrivals with
    | [] => (none, [])
    | d :: rest => (stripOrNone d, rest)

/-- C1: a driver report submitted through post_driver while no consumer is
blocked in a wait is discarded — the broker state is unchanged — so a wait
issued by a later trial returns exactly what it would have returned had the
report never been submitted. -/
theorem post_driver_discards_without_waiter (d : String) (s : BrokerState)
    (arrivals : List String) (h : s.waiters = 0) :
    post_driver d s = s ∧
    wait_for_driver_result (post_driver d s).queue arrivals =
      wait_for_driver_result s.queue arrivals := by
  have h1 : post_driver d s = s := by
    simp [post_driver, h]
  exact ⟨h1, by rw [h1]⟩

/-- C1 witness: the submission "chrome" with no waiter leaves an empty broker
untouched, and a later wait still times out. -/
theorem post_driver_discards_without_waiter_witness :
    (⟨[], 0⟩ : BrokerState).waiters = 0 ∧
    (post_driver "chrome" ⟨[], 0⟩ = (⟨[], 0⟩ : BrokerState) ∧
      wait_for_driver_result (post_driver "chrome" ⟨[], 0⟩).queue [] =
        wait_for_driver_result (⟨[], 0⟩ : BrokerState).queue []) :=
  ⟨rfl, post_driver_discards_without_waiter "chrome" ⟨[], 0⟩ [] rfl⟩

/-- C2 counterexample: a whitespace-only submission accepted while a waiter
was registered leaves the report "" pending, so a report is available in the
queue; yet the wait consumes it and returns absent rather than returning the
report, refuting the claim that an available report is returned. -/
theorem wait_available_report_not_returned :
    (post_driver "   " ⟨[], 1⟩ : BrokerState).queue = [""] ∧
    ([""] : List String) ≠ [] ∧
    wait_for_driver_result [""] [] = (none, []) := by
  refine ⟨?_, by simp, ?_⟩ <;> decide

/-- One candidate framework entry from the configured table: its identity
(framework_name, with "human" as the sentinel) and its docker image. -/
structure FrameworkEntry where
  framework_name : String
  image : String
deriving DecidableEq, Repr

/-- One record appended to detection_dict by the scoring loop in
service.score. -/
structure DetectionRecord where
  detected : Bool
  driver : String
  predicted : String
  execution_time : ℚ
deriving DecidableEq, Repr

/-- Environment of a single trial: whether executing the framework raises
(the message of the exception caught by the per-trial handler, e.g. a
container launch failure), the driver reports accepted while this trial is
blocked in its wait, and the wall-clock duration the trial observes. -/
structure TrialEnv where
  launchError : Option String
  arrivals : List String
  duration : ℚ
deriving DecidableEq, Repr

/-- Embeds one iteration of the scoring loop in service.score: clear the
driver queue, execute the framework (human simulation or bot container),
wait on the broker, and build the record appended to detection_dict for this
index.  Pushcut failures on the human path are caught inside the loop body
and do not change control flow.  The returned state is the broker state the
next iteration starts from. -/
def runTrial (entry : FrameworkEntry) (env : TrialEnv) (s : BrokerState) :
    DetectionRecord × BrokerState :=
  let s1 := clear_driver_queue s
  if entry.framework_name = "human" then
    let w := wait_for_driver_result s1.queue env.arrivals
    let predicted :=
      match w.1 with
      | some v => v
      | none => "No driver reported"
    ({ detected := w.1 == some entry.framework_name
     , driver := entry.framework_name
     , predicted := predicted
     , execution_time := env.duration },
     { queue := w.2, waiters := 0 })
  else
    match env.launchError with
    | some msg =>
      ({ detected := false
       , driver := entry.framework_name
       , predicted := "Error: " ++ msg
       , execution_time := 0 }, s1)
    | none =>
      let w := wait_for_driver_result s1.queue env.arrivals
      match w.1 with
      | some v =>
        ({ detected := v == entry.framework_name
         , driver := entry.framework_name
         , predicted := v
         , execution_time := env.duration },
         { queue := w.2, waiters := 0 })
      | none =>
        ({ detected := false
         , driver := entry.framework_name
         , predicted := "The script did not return any driver"
         , execution_time := env.duration },
         { queue := w.2, waiters := 0 })

/-- The scoring loop over the randomized framework sequence: one record per
trial, threading the broker state through the trials in order. -/
def runTrials : List FrameworkEntry → List TrialEnv → BrokerState →
    List DetectionRecord × BrokerState
  | [], _, s => ([], s)
  | _ :: _, [], s => ([], s)
  | e :: es, v :: vs, s =>
    let p := runTrial e v s
    let q := runTrials es vs p.2
    (p.1 :: q.1, q.2)

/-- The record a trial produces; because the loop clears the driver queue
before executing each framework, it does not depend on the broker state the
trial starts from. -/
def trialRecord (entry : FrameworkEntry) (env : TrialEnv) : DetectionRecord :=
  (runTrial entry env ⟨[], 0⟩).1

/-- One step of the regrouping loop in service.score: append a record to the
group of its driver name, creating the group at the end on first sight
(Python defaultdict preserves first-seen key order). -/
def insertRecord : List (String × List DetectionRecord) → DetectionRecord →
    List (String × List DetectionRecord)
  | [], r => [(r.driver, [r])]
  | (k, rs) :: rest, r =>
    if k = r.driver then (k, rs ++ [r]) :: rest
    else (k, rs) :: insertRecord rest r

/-- Embeds the regrouping of detection_dict into framework_results keyed by
driver name, iterating the records in index order. -/
def frameworkResults (recs : List DetectionRecord) :
    List (String × List DetectionRecord) :=
  recs.foldl insertRecord []

/-- total_detections in service.score: every record of every group counts. -/
def totalDetections (groups : List (String × List DetectionRecord)) : Nat :=
  (groups.map (fun g => g.2.length)).sum

/-- successful_detections in service.score: records whose detected flag is
set. -/
def successfulDetections (groups : List (String × List DetectionRecord)) : Nat :=
  (groups.map (fun g => g.2.countP (fun r => r.detected))).sum

/-- Embeds the aggregation at the end of service.score: regroup the flattened
detection_dict by driver, count records and successes, and divide, with 0.0
when nothing was recorded. -/
def computeScore (detection_dict : List (List DetectionRecord)) : ℚ :=
  let fr := frameworkResults detection_dict.flatten
  let total := totalDetections fr
  let succ := successfulDetections fr
  if 0 < total then (succ : ℚ) / (total : ℚ) else 0

/-- Embeds the repetition loop of utils.gen_ran_framework_sequence: extend an
accumulator with the configured framework list once per repetition. -/
def repeatedFrameworks (frameworks : List FrameworkEntry) :
    Nat → List FrameworkEntry
  | 0 => []
  | n + 1 => repeatedFrameworks frameworks n ++ frameworks

/-- The in-place swap x[i], x[j] = x[j], x[i] performed by python
random.shuffle on a list; out-of-range positions leave the list unchanged
(they never occur in the shuffle loop). -/
def swapL (xs : List α) (i j : Nat) : List α :=
  match xs[i]?, xs[j]? with
  | some a, some b => (xs.set i b).set j a
  | _, _ => xs

/-- The Fisher-Yates loop of python random.shuffle: for i from len-1 down
to 1, draw j uniformly in [0, i] and swap positions i and j.  `rand i` is
the raw draw for index i, reduced mod (i+1) exactly as int(random()*(i+1))
lands in [0, i].  The first argument counts the indices still to process. -/
def shuffleFrom (rand : Nat → Nat) : Nat → List α → List α
  | 0, xs => xs
  | n + 1, xs => shuffleFrom rand n (swapL xs (n + 1) (rand (n + 1) % (n + 2)))

/-- python random.shuffle applied to a list. -/
def pyShuffle (rand : Nat → Nat) (xs : List α) : List α :=
  shuffleFrom rand (xs.length - 1) xs

/-- Embeds utils.gen_ran_framework_sequence: repeat the configured framework
list repeated_framework_count times, then shuffle the result in place. -/
def gen_ran_framework_sequence (frameworks : List FrameworkEntry) (rep : Nat)
    (rand : Nat → Nat) : List FrameworkEntry :=
  pyShuffle rand (repeatedFrameworks frameworks rep)

/-- Everything service.score produces: the returned value (or the propagated
exception), the detection_dict left in the module global, and the broker
state. -/
structure ServiceOutcome where
  result : Except String ℚ
  detection_dict : List (List DetectionRecord)
  broker : BrokerState
deriving Repr

/-- Embeds service.score.  `setupOk` abstracts the setup phase (copying the
detector file into the templates directory and creating the docker client),
whose failure propagates; `rand` feeds the sequence shuffle; `envs` supplies
per-trial execution behaviour and report arrivals; the last two arguments
are the previous run's detection_dict and broker state.  The body resets
detection_dict, clears the driver queue before the run and before every
trial (inside runTrial), runs the trials, aggregates, and clears the queue
again in the finally block. -/
def score (setupOk : Bool) (frameworks : List FrameworkEntry) (rep : Nat)
    (rand : Nat → Nat) (envs : List TrialEnv)
    (_oldDict : List (List DetectionRecord)) (s0 : BrokerState) :
    ServiceOutcome :=
  let _reset : List (List DetectionRecord) := []
  let s1 := clear_driver_queue s0
  if setupOk then
    let entries := gen_ran_framework_sequence frameworks rep rand
    let p := runTrials entries envs s1
    let dict := p.1.map (fun r => [r])
    { result := Except.ok (computeScore dict)
    , detection_dict := dict
    , broker := clear_driver_queue p.2 }
  else
    { result := Except.error "setup failed"
    , detection_dict := _reset
    , broker := clear_driver_queue s1 }

/-- Embeds router.post_score: call the service, return the score on success;
on any exception log and return None (the re-raise is commented out), never
an HTTP error. -/
def post_score (outcome : Except String ℚ) : Option ℚ :=
  match outcome with
  | Except.ok v => some v
  | Except.error _ => none

/-- Outcome of the container wait step in utils.run_bot_container: a normal
exit, an APIError from the docker API, or the timeout/other exception branch;
all three are caught. -/
inductive WaitOutcome
  | normal
  | apiError
  | timedOut
deriving DecidableEq, Repr

/-- Environment of one utils.run_bot_container call: whether the network
inspection fails (fatal), whether containers.run raises (the message), the
outcome of the wait, and whether the stop and remove cleanup calls fail. -/
structure RunnerEnv where
  networkError : Bool
  launchError : Option String
  waitOutcome : WaitOutcome
  stopFails : Bool
  removeFails : Bool
deriving DecidableEq, Repr

/-- Observable docker operations performed by utils.run_bot_container. -/
inductive RunnerEvent
  | forceRemoveExisting (container_name : String)
  | launch (image_name container_name : String)
  | waitObserved (outcome : WaitOutcome)
  | stopAttempt (container_name : String) (timeoutSeconds : Nat)
  | removeAttempt (container_name : String) (force : Bool)
deriving DecidableEq, Repr

/-- Embeds utils.run_bot_container as a trace of docker operations together
with its result.  Network setup failure propagates before anything runs; a
pre-existing container with the same name is force-removed before launch; a
containers.run failure propagates via the outer handler; otherwise the wait
runs with whatever outcome (all exceptions caught), and the finally block
attempts container.stop(timeout=5) then container.remove(force=True), each
inside its own try whose failure is swallowed, so the call still returns
normally whatever stopFails and removeFails are. -/
def run_bot_container (env : RunnerEnv) (image_name container_name : String) :
    Except String Unit × List RunnerEvent :=
  if env.networkError then
    (Except.error "network setup failed", [])
  else
    let pre := [RunnerEvent.forceRemoveExisting container_name]
    match env.launchError with
    | some msg => (Except.error msg, pre)
    | none =>
      (Except.ok (),
       pre ++ [RunnerEvent.launch image_name container_name,
               RunnerEvent.waitObserved env.waitOutcome,
               RunnerEvent.stopAttempt container_name 5,
               RunnerEvent.removeAttempt container_name true])

/-- Number of bounded stop attempts in a runner trace. -/
def countStopAttempts (evs : List RunnerEvent) : Nat :=
  evs.countP (fun e =>
    match e with
    | RunnerEvent.stopAttempt _ _ => true
    | _ => false)

/-- Number of forced remove attempts (of the launched container) in a runner
trace. -/
def countRemoveAttempts (evs : List RunnerEvent) : Nat :=
  evs.countP (fun e =>
    match e with
    | RunnerEvent.removeAttempt _ _ => true
    | _ => false)

theorem runTrial_fst (entry : FrameworkEntry) (env : TrialEnv)
    (s : BrokerState) : (runTrial entry env s).1 = trialRecord entry env := by
  obtain ⟨q, wtr⟩ := s
  by_cases hh : entry.framework_name = "human" <;>
    cases henv : env.launchError <;>
      simp [trialRecord, runTrial, clear_driver_queue, hh, henv]

theorem runTrials_fst (entries : List FrameworkEntry) :
    ∀ (envs : List TrialEnv) (s : BrokerState),
      (runTrials entries envs s).1 = List.zipWith trialRecord entries envs := by
  induction entries with
  | nil => intro envs s; cases envs <;> rfl
  | cons e es ih =>
    intro envs s
    cases envs with
    | nil => rfl
    | cons v vs => simp [runTrials, runTrial_fst, ih]

theorem totalDetections_nil : totalDetections [] = 0 := rfl

theorem totalDetections_insertRecord
    (gs : List (String × List DetectionRecord)) (r : DetectionRecord) :
    totalDetections (insertRecord gs r) = totalDetections gs + 1 := by
  induction gs with
  | nil => simp [insertRecord, totalDetections]
  | cons g rest ih =>
    obtain ⟨k, rs⟩ := g
    by_cases h : k = r.driver <;>
      simp [insertRecord, totalDetections, h] at ih ⊢ <;> omega

theorem successfulDetections_insertRecord
    (gs : List (String × List DetectionRecord)) (r : DetectionRecord) :
    successfulDetections (insertRecord gs r) =
      successfulDetections gs + (if r.detected then 1 else 0) := by
  induction gs with
  | nil => simp [insertRecord, successfulDetections, List.countP_cons]
  | cons g rest ih =>
    obtain ⟨k, rs⟩ := g
    by_cases h : k = r.driver <;>
      simp [insertRecord, successfulDetections, h, List.countP_append,
        List.countP_cons] at ih ⊢ <;> omega

theorem totalDetections_foldl (recs : List DetectionRecord) :
    ∀ init, totalDetections (recs.foldl insertRecord init) =
      totalDetections init + recs.length := by
  induction recs with
  | nil => intro init; simp
  | cons r rest ih =>
    intro init
    simp [List.foldl_cons, ih, totalDetections_insertRecord]
    omega

theorem successfulDetections_foldl (recs : List DetectionRecord) :
    ∀ init, successfulDetections (recs.foldl insertRecord init) =
      successfulDetections init + recs.countP (fun r => r.detected) := by
  induction recs with
  | nil => intro init; simp
  | cons r rest ih =>
    intro init
    simp [List.foldl_cons, ih, successfulDetections_insertRecord,
      List.countP_cons]
    by_cases h : r.detected = true <;> simp [h] <;> try omega

theorem totalDetections_frameworkResults (recs : List DetectionRecord) :
    totalDetections (frameworkResults recs) = recs.length := by
  simp [frameworkResults, totalDetections_foldl, totalDetections_nil]

theorem successfulDetections_frameworkResults (recs : List DetectionRecord) :
    successfulDetections (frameworkResults recs) =
      recs.countP (fun r => r.detected) := by
  have h := successfulDetections_foldl recs []
  simpa [frameworkResults, successfulDetections] using h

theorem computeScore_eq (dd : List (List DetectionRecord)) :
    computeScore dd =
      if dd.flatten.length = 0 then 0
      else ((dd.flatten.countP (fun r => r.detected) : ℚ)) /
        ((dd.flatten.length : ℚ)) := by
  simp only [computeScore, totalDetections_frameworkResults,
    successfulDetections_frameworkResults]
  by_cases h : dd.flatten.length = 0
  · rw [h]
    norm_num
  · rw [if_neg h, if_pos (Nat.pos_of_ne_zero h)]

theorem computeScore_bounds (dd : List (List DetectionRecord)) :
    0 ≤ computeScore dd ∧ computeScore dd ≤ 1 := by
  rw [computeScore_eq]
  by_cases h : dd.flatten.length = 0
  · rw [if_pos h]
    norm_num
  · rw [if_neg h]
    have hpos : 0 < dd.flatten.length := Nat.pos_of_ne_zero h
    have hc : dd.flatten.countP (fun r => r.detected) ≤ dd.flatten.length :=
      List.countP_le_length _
    have hn : (0 : ℚ) < (dd.flatten.length : ℚ) := by exact_mod_cast hpos
    constructor
    · exact div_nonneg (Nat.cast_nonneg _) (Nat.cast_nonneg _)
    · rw [div_le_one hn]
      exact_mod_cast hc

theorem flatten_singletons (l : List DetectionRecord) :
    (l.map (fun r => [r])).flatten = l := by
  induction l with
  | nil => rfl
  | cons r rest ih => simp [ih]

/-- C3: for every completed run the final score equals the number of
detected (matched) outcome records divided by the number of recorded
outcomes; four recorded outcomes of which three matched give 0.75, and a
run with no outcome records gives exactly 0 rather than an error. -/
theorem score_is_matched_fraction :
    (∀ dd : List (List DetectionRecord),
      computeScore dd =
        if dd.flatten.length = 0 then 0
        else ((dd.flatten.countP (fun r => r.detected) : ℚ)) /
          ((dd.flatten.length : ℚ))) ∧
    computeScore
      [[⟨true, "selenium", "selenium", 2⟩],
       [⟨true, "playwright", "playwright", 2⟩],
       [⟨true, "human", "human", 3⟩],
       [⟨false, "puppeteer", "selenium", 2⟩]] = 3 / 4 ∧
    computeScore [] = 0 := by
  refine ⟨computeScore_eq, ?_, rfl⟩
  rw [computeScore_eq]
  norm_num [List.countP_cons]

/-- C4: the recorded matched flag of a trial that executed its framework
without raising is set iff the observed driver report equals the trial's
expected framework identity (the sentinel "human" included); submitting
"firefox" during the "firefox" trial matches, submitting "chrome" during
the "firefox" trial does not. -/
theorem detection_matched_iff (entry : FrameworkEntry) (env : TrialEnv)
    (s : BrokerState) (h : env.launchError = none) :
    ((runTrial entry env s).1.detected = true ↔
      (wait_for_driver_result [] env.arrivals).1 = some entry.framework_name) ∧
    (trialRecord ⟨"firefox", "firefox-image"⟩ ⟨none, ["firefox"], 1⟩).detected
      = true ∧
    (trialRecord ⟨"firefox", "firefox-image"⟩ ⟨none, ["chrome"], 1⟩).detected
      = false := by
  refine ⟨?_, by decide, by decide⟩
  obtain ⟨q, wtr⟩ := s
  rcases hw : (wait_for_driver_result [] env.arrivals).1 with _ | v <;>
    by_cases hh : entry.framework_name = "human" <;>
      simp [runTrial, clear_driver_queue, hh, h, hw, beq_iff_eq]

/-- C4 witness: the firefox trial with report "firefox" evaluated through
the theorem at a concrete broker state. -/
theorem detection_matched_iff_witness :
    (⟨none, ["firefox"], 1⟩ : TrialEnv).launchError = none ∧
    (((runTrial ⟨"firefox", "firefox-image"⟩ ⟨none, ["firefox"], 1⟩
          ⟨[], 0⟩).1.detected = true ↔
        (wait_for_driver_result []
            (⟨none, ["firefox"], 1⟩ : TrialEnv).arrivals).1 =
          some (⟨"firefox", "firefox-image"⟩ : FrameworkEntry).framework_name) ∧
      (trialRecord ⟨"firefox", "firefox-image"⟩
          ⟨none, ["firefox"], 1⟩).detected = true ∧
      (trialRecord ⟨"firefox", "firefox-image"⟩
          ⟨none, ["chrome"], 1⟩).detected = false) :=
  ⟨rfl, detection_matched_iff ⟨"firefox", "firefox-image"⟩
    ⟨none, ["firefox"], 1⟩ ⟨[], 0⟩ rfl⟩

/-- C5: a scoring run resets the result state and clears the broker queue at
its start, before every trial and after its end: its returned result and its
recorded outcomes do not depend on the previous run's detection_dict or on
any pending reports in the broker, every trial's outcome is independent of
the broker state reaching it, and the run leaves an empty queue behind. -/
theorem scoring_run_clears_state (setupOk : Bool)
    (frameworks : List FrameworkEntry) (rep : Nat) (rand : Nat → Nat)
    (envs : List TrialEnv) (oldDict oldDict2 : List (List DetectionRecord))
    (s0 s0' : BrokerState) :
    (score setupOk frameworks rep rand envs oldDict s0).result =
        (score setupOk frameworks rep rand envs oldDict2 s0').result ∧
    (score setupOk frameworks rep rand envs oldDict s0).detection_dict =
        (score setupOk frameworks rep rand envs oldDict2 s0').detection_dict ∧
    (score setupOk frameworks rep rand envs oldDict s0).broker.queue = [] ∧
    ∀ entries (s s' : BrokerState),
      (runTrials entries envs s).1 = (runTrials entries envs s').1 := by
  have hind : ∀ entries (s s' : BrokerState),
      (runTrials entries envs s).1 = (runTrials entries envs s').1 := by
    intro entries s s'
    rw [runTrials_fst, runTrials_fst]
  cases setupOk
  · exact ⟨rfl, rfl, rfl, hind⟩
  · have hdict : ∀ (od : List (List DetectionRecord)) (sa : BrokerState),
        (score true frameworks rep rand envs od sa).detection_dict =
          (List.zipWith trialRecord
            (gen_ran_framework_sequence frameworks rep rand) envs).map
            (fun r => [r]) := by
      intro od sa
      simp [score, runTrials_fst]
    have h1 := hdict oldDict s0
    have h2 := hdict oldDict2 s0'
    refine ⟨?_, ?_, rfl, hind⟩
    · calc (score true frameworks rep rand envs oldDict s0).result
          = Except.ok (computeScore
              (score true frameworks rep rand envs oldDict s0).detection_dict)
            := rfl
        _ = Except.ok (computeScore
              (score true frameworks rep rand envs oldDict2 s0').detection_dict)
            := by rw [h1, h2]
        _ = (score true frameworks rep rand envs oldDict2 s0').result := rfl
    · rw [h1, h2]

/-- C6: an error raised while executing trial k (for example a container
launch failure) is caught at the trial level and recorded as an unmatched
outcome whose predicted value is the error placeholder; every trial of the
sequence, the later ones included, still produces its own record and the run
is not aborted. -/
theorem trial_error_isolated (entries : List FrameworkEntry)
    (envs : List TrialEnv) (s : BrokerState) (k : Nat) (msg : String)
    (hlen : envs.length = entries.length) (hk : k < entries.length)
    (hk2 : k < envs.length)
    (hhuman : entries[k].framework_name ≠ "human")
    (herr : envs[k].launchError = some msg) :
    (runTrials entries envs s).1 = List.zipWith trialRecord entries envs ∧
    (runTrials entries envs s).1.length = entries.length ∧
    (runTrials entries envs s).1[k]? = some
      { detected := false
      , driver := entries[k].framework_name
      , predicted := "Error: " ++ msg
      , execution_time := 0 } := by
  have h1 := runTrials_fst entries envs s
  have hzlen : (List.zipWith trialRecord entries envs).length = entries.length := by
    rw [List.length_zipWith, hlen, Nat.min_self]
  refine ⟨h1, by rw [h1, hzlen], ?_⟩
  rw [h1, List.getElem?_eq_getElem (by rw [hzlen]; exact hk)]
  congr 1
  rw [List.getElem_zipWith]
  simp [trialRecord, runTrial, clear_driver_queue, hhuman, herr]

/-- C6 witness: a three-trial run whose middle trial raises a launch error
still records all three outcomes, the middle one as the error placeholder. -/
theorem trial_error_isolated_witness :
    ([(⟨none, ["firefox"], 2⟩ : TrialEnv), ⟨some "launch failed", [], 0⟩,
        ⟨none, ["human"], 3⟩].length =
      [(⟨"firefox", "firefox-image"⟩ : FrameworkEntry), ⟨"chromium", "chromium-image"⟩,
        ⟨"human", ""⟩].length) ∧
    1 < [(⟨"firefox", "firefox-image"⟩ : FrameworkEntry), ⟨"chromium", "chromium-image"⟩,
        ⟨"human", ""⟩].length ∧
    1 < [(⟨none, ["firefox"], 2⟩ : TrialEnv), ⟨some "launch failed", [], 0⟩,
        ⟨none, ["human"], 3⟩].length ∧
    ("chromium" : String) ≠ "human" ∧
    (some "launch failed" : Option String) = some "launch failed" ∧
    ((runTrials
        [⟨"firefox", "firefox-image"⟩, ⟨"chromium", "chromium-image"⟩, ⟨"human", ""⟩]
        [⟨none, ["firefox"], 2⟩, ⟨some "launch failed", [], 0⟩, ⟨none, ["human"], 3⟩]
        ⟨[], 0⟩).1 =
      List.zipWith trialRecord
        [⟨"firefox", "firefox-image"⟩, ⟨"chromium", "chromium-image"⟩, ⟨"human", ""⟩]
        [⟨none, ["firefox"], 2⟩, ⟨some "launch failed", [], 0⟩, ⟨none, ["human"], 3⟩] ∧
     (runTrials
        [⟨"firefox", "firefox-image"⟩, ⟨"chromium", "chromium-image"⟩, ⟨"human", ""⟩]
        [⟨none, ["firefox"], 2⟩, ⟨some "launch failed", [], 0⟩, ⟨none, ["human"], 3⟩]
        ⟨[], 0⟩).1.length = 3 ∧
     (runTrials
        [⟨"firefox", "firefox-image"⟩, ⟨"chromium", "chromium-image"⟩, ⟨"human", ""⟩]
        [⟨none, ["firefox"], 2⟩, ⟨some "launch failed", [], 0⟩, ⟨none, ["human"], 3⟩]
        ⟨[], 0⟩).1[1]? = some
      { detected := false
      , driver := "chromium"
      , predicted := "Error: " ++ "launch failed"
      , execution_time := 0 }) :=
  ⟨rfl, by decide, by decide, by decide, rfl,
    trial_error_isolated
      [⟨"firefox", "firefox-image"⟩, ⟨"chromium", "chromium-image"⟩, ⟨"human", ""⟩]
      [⟨none, ["firefox"], 2⟩, ⟨some "launch failed", [], 0⟩, ⟨none, ["human"], 3⟩]
      ⟨[], 0⟩ 1 "launch failed" rfl (by decide) (by decide) (by decide) rfl⟩

/-- C10: every executed trial appends exactly one record at its index — the
timeout and error paths included — so the detection_dict has one singleton
list per trial, the number of recorded outcomes equals the number of trials
executed, and the score denominator is the full trial count. -/
theorem every_trial_records_one_outcome (entries : List FrameworkEntry)
    (envs : List TrialEnv) (s : BrokerState)
    (hlen : envs.length = entries.length) :
    ((runTrials entries envs s).1.map (fun r => [r])).length = entries.length ∧
    (∀ l, l ∈ (runTrials entries envs s).1.map (fun r => [r]) →
      l.length = 1) ∧
    ((runTrials entries envs s).1.map (fun r => [r])).flatten.length =
      entries.length ∧
    totalDetections (frameworkResults
      ((runTrials entries envs s).1.map (fun r => [r])).flatten) =
      entries.length := by
  have h1 := runTrials_fst entries envs s
  have hzlen : (runTrials entries envs s).1.length = entries.length := by
    rw [h1, List.length_zipWith, hlen, Nat.min_self]
  refine ⟨by simpa using hzlen, ?_, ?_, ?_⟩
  · intro l hl
    obtain ⟨r, _, rfl⟩ := List.mem_map.mp hl
    rfl
  · rw [flatten_singletons, hzlen]
  · rw [totalDetections_frameworkResults, flatten_singletons, hzlen]

/-- C10 witness: a two-trial run — one timing out with no report, one
raising — records exactly one outcome per trial and the denominator is 2. -/
theorem every_trial_records_one_outcome_witness :
    ([(⟨none, [], 2⟩ : TrialEnv), ⟨some "boom", [], 0⟩].length =
      [(⟨"firefox", "fi"⟩ : FrameworkEntry), ⟨"chromium", "ci"⟩].length) ∧
    (((runTrials [⟨"firefox", "fi"⟩, ⟨"chromium", "ci"⟩]
        [⟨none, [], 2⟩, ⟨some "boom", [], 0⟩] ⟨[], 0⟩).1.map
          (fun r => [r])).length = 2 ∧
     (∀ l, l ∈ (runTrials [⟨"firefox", "fi"⟩, ⟨"chromium", "ci"⟩]
        [⟨none, [], 2⟩, ⟨some "boom", [], 0⟩] ⟨[], 0⟩).1.map (fun r => [r]) →
        l.length = 1) ∧
     ((runTrials [⟨"firefox", "fi"⟩, ⟨"chromium", "ci"⟩]
        [⟨none, [], 2⟩, ⟨some "boom", [], 0⟩] ⟨[], 0⟩).1.map
          (fun r => [r])).flatten.length = 2 ∧
     totalDetections (frameworkResults
        ((runTrials [⟨"firefox", "fi"⟩, ⟨"chromium", "ci"⟩]
          [⟨none, [], 2⟩, ⟨some "boom", [], 0⟩] ⟨[], 0⟩).1.map
            (fun r => [r])).flatten) = 2) :=
  ⟨rfl, every_trial_records_one_outcome
    [⟨"firefox", "fi"⟩, ⟨"chromium", "ci"⟩]
    [⟨none, [], 2⟩, ⟨some "boom", [], 0⟩] ⟨[], 0⟩ rfl⟩

theorem cons_set_perm {α : Type} (xs : List α) :
    ∀ (k : Nat) (hk : k < xs.length) (a : α),
      List.Perm (xs[k] :: xs.set k a) (a :: xs) := by
  induction xs with
  | nil => intro k hk; simp at hk
  | cons x t ih =>
    intro k hk a
    cases k with
    | zero =>
      simpa using List.Perm.swap a x t
    | succ m =>
      have hm : m < t.length := by simpa using hk
      have step1 : List.Perm (t[m] :: x :: t.set m a) (x :: t[m] :: t.set m a) :=
        List.Perm.swap x (t[m]) (t.set m a)
      have step2 : List.Perm (x :: t[m] :: t.set m a) (x :: a :: t) :=
        List.Perm.cons x (ih m hm a)
      have step3 : List.Perm (x :: a :: t) (a :: x :: t) :=
        List.Perm.swap a x t
      simpa using (step1.trans step2).trans step3

theorem swap_set_perm {α : Type} (xs : List α) :
    ∀ (i j : Nat) (hi : i < xs.length) (hj : j < xs.length),
      List.Perm ((xs.set i xs[j]).set j xs[i]) xs := by
  induction xs with
  | nil => intro i j hi; simp at hi
  | cons x t ih =>
    intro i j hi hj
    cases i with
    | zero =>
      cases j with
      | zero => simp
      | succ m =>
        have hm : m < t.length := by simpa using hj
        simpa using cons_set_perm t m hm x
    | succ n =>
      have hn : n < t.length := by simpa using hi
      cases j with
      | zero =>
        simpa using cons_set_perm t n hn x
      | succ m =>
        have hm : m < t.length := by simpa using hj
        simpa using List.Perm.cons x (ih n m hn hm)

theorem swapL_perm {α : Type} (xs : List α) (i j : Nat) :
    List.Perm (swapL xs i j) xs := by
  unfold swapL
  split
  · next a b hia hjb =>
    obtain ⟨hi, ha⟩ := List.getElem?_eq_some_iff.mp hia
    obtain ⟨hj, hb⟩ := List.getElem?_eq_some_iff.mp hjb
    subst ha hb
    exact swap_set_perm xs i j hi hj
  · exact List.Perm.refl xs

theorem shuffleFrom_perm {α : Type} (rand : Nat → Nat) :
    ∀ (n : Nat) (xs : List α), List.Perm (shuffleFrom rand n xs) xs := by
  intro n
  induction n with
  | zero => intro xs; exact List.Perm.refl xs
  | succ m ih =>
    intro xs
    exact (ih _).trans (swapL_perm xs (m + 1) (rand (m + 1) % (m + 2)))

theorem pyShuffle_perm {α : Type} (rand : Nat → Nat) (xs : List α) :
    List.Perm (pyShuffle rand xs) xs :=
  shuffleFrom_perm rand (xs.length - 1) xs

theorem repeatedFrameworks_length (frameworks : List FrameworkEntry) :
    ∀ n, (repeatedFrameworks frameworks n).length = n * frameworks.length := by
  intro n
  induction n with
  | zero => simp [repeatedFrameworks]
  | succ m ih => simp [repeatedFrameworks, ih, Nat.succ_mul]

/-- C9: the generated trial sequence is a random-shuffle permutation of the
configured framework set repeated repetition_count times, its length is
repetition_count times the framework count, and each run derives its
recorded outcomes from a sequence generated fresh from the run's own random
draws. -/
theorem trial_sequence_spec (frameworks : List FrameworkEntry) (rep : Nat)
    (rand : Nat → Nat) (envs : List TrialEnv)
    (oldDict : List (List DetectionRecord)) (s0 : BrokerState) :
    (gen_ran_framework_sequence frameworks rep rand).length =
      rep * frameworks.length ∧
    List.Perm (gen_ran_framework_sequence frameworks rep rand)
      (repeatedFrameworks frameworks rep) ∧
    (score true frameworks rep rand envs oldDict s0).detection_dict =
      (List.zipWith trialRecord
        (gen_ran_framework_sequence frameworks rep rand) envs).map
        (fun r => [r]) := by
  have hp : List.Perm (gen_ran_framework_sequence frameworks rep rand)
      (repeatedFrameworks frameworks rep) :=
    pyShuffle_perm rand (repeatedFrameworks frameworks rep)
  refine ⟨?_, hp, ?_⟩
  · rw [hp.length_eq, repeatedFrameworks_length]
  · simp [score, runTrials_fst]

/-- C2 amended: a wait with a non-negative timeout consumes at most one
report per call, in first-submitted-first-consumed order: with nothing
queued and nothing arriving it returns absent (a normal outcome); with a
report available (queued, or arriving while blocked) it consumes exactly
the first one and returns it stripped — except that a report that is empty
after stripping is consumed but yields absent. -/
theorem wait_fifo_timeout_contract (d : String) (rest arrivals : List String) :
    wait_for_driver_result [] [] = (none, []) ∧
    wait_for_driver_result (d :: rest) arrivals = (stripOrNone d, rest) ∧
    wait_for_driver_result [] (d :: rest) = (stripOrNone d, rest) :=
  ⟨rfl, rfl, rfl⟩

/-- C7 counterexample: when containers.run raises mid-launch, the error
propagates and the bounded stop and forced remove of the launched container
are never attempted (zero attempts, not one), refuting that cleanup is
attempted regardless of the runner throwing mid-launch. -/
theorem container_cleanup_skipped_on_launch_error :
    countStopAttempts
      (run_bot_container
        ⟨false, some "launch failed", WaitOutcome.normal, false, false⟩
        "bot-image" "bot_container").2 = 0 ∧
    countRemoveAttempts
      (run_bot_container
        ⟨false, some "launch failed", WaitOutcome.normal, false, false⟩
        "bot-image" "bot_container").2 = 0 ∧
    (run_bot_container
        ⟨false, some "launch failed", WaitOutcome.normal, false, false⟩
        "bot-image" "bot_container").1 = Except.error "launch failed" :=
  ⟨rfl, rfl, rfl⟩

/-- C7 amended: for every trial whose container launch succeeded, whatever
the wait outcome (normal exit, timeout, or API error) and whatever happens
during cleanup, exactly one bounded stop and exactly one forced remove are
attempted and the call returns normally — cleanup failures are swallowed,
never raised past the runner. -/
theorem container_cleanup_after_launch (env : RunnerEnv)
    (image_name container_name : String)
    (hnet : env.networkError = false) (hlaunch : env.launchError = none) :
    countStopAttempts
      (run_bot_container env image_name container_name).2 = 1 ∧
    countRemoveAttempts
      (run_bot_container env image_name container_name).2 = 1 ∧
    (run_bot_container env image_name container_name).1 = Except.ok () := by
  simp [run_bot_container, hnet, hlaunch, countStopAttempts,
    countRemoveAttempts, List.countP_cons]

/-- C7 witness: a trial whose wait timed out and whose stop and remove both
fail still records exactly one stop attempt and one remove attempt and
returns normally. -/
theorem container_cleanup_after_launch_witness :
    (⟨false, none, WaitOutcome.timedOut, true, true⟩ : RunnerEnv).networkError
      = false ∧
    (⟨false, none, WaitOutcome.timedOut, true, true⟩ : RunnerEnv).launchError
      = none ∧
    (countStopAttempts
      (run_bot_container ⟨false, none, WaitOutcome.timedOut, true, true⟩
        "bot-image" "bot_container").2 = 1 ∧
     countRemoveAttempts
      (run_bot_container ⟨false, none, WaitOutcome.timedOut, true, true⟩
        "bot-image" "bot_container").2 = 1 ∧
     (run_bot_container ⟨false, none, WaitOutcome.timedOut, true, true⟩
        "bot-image" "bot_container").1 = Except.ok ()) :=
  ⟨rfl, rfl, container_cleanup_after_launch
    ⟨false, none, WaitOutcome.timedOut, true, true⟩
    "bot-image" "bot_container" rfl rfl⟩

/-- C8: the score endpoint returns the scalar score, which lies in [0, 1],
when the run completes; any exception out of the service is converted to an
empty (null) response rather than an HTTP error; and inside the service only
setup-phase failures propagate — with the setup succeeded, the run returns a
score whatever the trials did. -/
theorem post_score_contract (frameworks : List FrameworkEntry) (rep : Nat)
    (rand : Nat → Nat) (envs : List TrialEnv)
    (oldDict : List (List DetectionRecord)) (s0 : BrokerState) :
    (∃ sc, (score true frameworks rep rand envs oldDict s0).result =
        Except.ok sc ∧
      post_score (score true frameworks rep rand envs oldDict s0).result =
        some sc ∧
      0 ≤ sc ∧ sc ≤ 1) ∧
    (score false frameworks rep rand envs oldDict s0).result =
      Except.error "setup failed" ∧
    post_score (score false frameworks rep rand envs oldDict s0).result =
      none ∧
    (∀ e, post_score (Except.error e) = none) := by
  refine ⟨?_, rfl, rfl, fun e => rfl⟩
  refine ⟨computeScore
    ((runTrials (gen_ran_framework_sequence frameworks rep rand) envs
      (clear_driver_queue s0)).1.map (fun r => [r])), rfl, rfl, ?_⟩
  exact computeScore_bounds _
